import Mathlib

/-!
Shallow embedding of the request-handling logic of `djstripe/views.py`
(dj-stripe).  Pure decision logic of each view method is translated into a
Lean function; collaborators that live outside the repository slice
(the ORM models, the Stripe SDK, Django helpers such as `is_safe_url`) are
passed in as explicit parameters, and the side effects a view performs
(persisting a trigger, posting flash messages, logging the user out,
dispatching invoices) are returned as explicit data so that theorems can
talk about them.
-/

/-- HTTP responses produced by `ProcessWebhookView.post`:
`HttpResponseBadRequest` (400), `HttpResponseServerError` (500) and
`HttpResponse(body)` (200 with a body). -/
inductive HttpResponse where
  | badRequest
  | serverError
  | ok (body : String)
  deriving DecidableEq, Repr

/-- The only part of the Django request that `ProcessWebhookView.post`
inspects directly: whether `"HTTP_STRIPE_SIGNATURE"` is in `request.META`. -/
structure WebhookRequest where
  hasStripeSignature : Bool
  deriving DecidableEq, Repr

/-- The fields of a persisted `WebhookEventTrigger` record that
`ProcessWebhookView.post` reads: `exception`, `is_test_event`, `valid`
and `id`.  The model class itself is outside the repository slice, so a
trigger is an arbitrary record of these fields. -/
structure WebhookEventTrigger where
  exception : Bool
  is_test_event : Bool
  valid : Bool
  id : Nat
  deriving DecidableEq, Repr

/-- The fixed body returned for test events:
`"Test webhook successfully received!"`. -/
def testWebhookBody : String := "Test webhook successfully received!"

/-- `ProcessWebhookView.post` (views.py lines 266-286).
`from_request` stands for `WebhookEventTrigger.from_request`, the model
constructor that persists and classifies the trigger.  The second component
of the result is the trigger record the call persisted (`none` when
`from_request` was never called, which is also the only way no record is
created). -/
def ProcessWebhookView.post (from_request : WebhookRequest → WebhookEventTrigger)
    (request : WebhookRequest) : HttpResponse × Option WebhookEventTrigger :=
  if !request.hasStripeSignature then
    (HttpResponse.badRequest, none)
  else
    let trigger := from_request request
    if trigger.exception then
      (HttpResponse.serverError, some trigger)
    else if trigger.is_test_event then
      (HttpResponse.ok testWebhookBody, some trigger)
    else if !trigger.valid then
      (HttpResponse.badRequest, some trigger)
    else
      (HttpResponse.ok (toString trigger.id), some trigger)

/-- **C1.** A webhook POST without the `HTTP_STRIPE_SIGNATURE` header gets
an HTTP 400 response and no `WebhookEventTrigger` record is created
(`WebhookEventTrigger.from_request` is never called), for every possible
behaviour of `from_request`. -/
theorem webhook_post_missing_signature_rejected
    (from_request : WebhookRequest → WebhookEventTrigger) :
    ProcessWebhookView.post from_request { hasStripeSignature := false } =
      (HttpResponse.badRequest, none) := by
  rfl

/-- A concrete `from_request` outcome used against C2 as literally stated:
the persisted trigger records `exception = true` while the payload marks the
event as a test event (`is_test_event = true`). -/
def exceptionTestEventTrigger : WebhookEventTrigger :=
  { exception := true, is_test_event := true, valid := true, id := 1 }

/-- **C2, counterexample.** A webhook POST carrying the signature header
whose payload marks it as a test event does NOT always return HTTP 200 with
the fixed body: when the trigger also records `exception = true`, the
exception check fires first and the response is HTTP 500. -/
theorem webhook_test_event_claim_counterexample :
    (ProcessWebhookView.post (fun _ => exceptionTestEventTrigger)
        { hasStripeSignature := true }).fst = HttpResponse.serverError ∧
    (ProcessWebhookView.post (fun _ => exceptionTestEventTrigger)
        { hasStripeSignature := true }).fst ≠ HttpResponse.ok testWebhookBody := by
  refine ⟨rfl, ?_⟩
  decide

/-- **C2, amended.** For every webhook POST carrying the signature header
whose trigger records `exception = false` and whose payload marks it as a
test event, `ProcessWebhookView.post` returns HTTP 200 with the fixed body
`"Test webhook successfully received!"`, regardless of whether the
signature verifies (the trigger's `valid` flag is not consulted). -/
theorem webhook_test_event_success_amended
    (from_request : WebhookRequest → WebhookEventTrigger)
    (request : WebhookRequest)
    (hsig : request.hasStripeSignature = true)
    (hexc : (from_request request).exception = false)
    (htest : (from_request request).is_test_event = true) :
    ProcessWebhookView.post from_request request =
      (HttpResponse.ok testWebhookBody, some (from_request request)) := by
  simp [ProcessWebhookView.post, hsig, hexc, htest]

/-- Witness for the amended C2, at a trigger whose signature did NOT verify
(`valid = false`), showing the `valid` flag is indeed not consulted. -/
theorem webhook_test_event_success_amended_witness :
    ProcessWebhookView.post
        (fun _ => { exception := false, is_test_event := true, valid := false, id := 7 })
        { hasStripeSignature := true } =
      (HttpResponse.ok testWebhookBody,
        some { exception := false, is_test_event := true, valid := false, id := 7 }) :=
  webhook_test_event_success_amended
    (fun _ => { exception := false, is_test_event := true, valid := false, id := 7 })
    { hasStripeSignature := true } rfl rfl rfl

/-- **C3.** For every webhook POST carrying the signature header whose
trigger has `exception = false` and `is_test_event = false`: if
`valid = false` the response is HTTP 400 and the trigger remains recorded
with `valid = false`; if `valid = true` the response is HTTP 200 with body
equal to the string form of the trigger's id. -/
theorem webhook_signature_validity_responses
    (from_request : WebhookRequest → WebhookEventTrigger)
    (request : WebhookRequest)
    (hsig : request.hasStripeSignature = true)
    (hexc : (from_request request).exception = false)
    (htest : (from_request request).is_test_event = false) :
    ((from_request request).valid = false →
      ProcessWebhookView.post from_request request =
        (HttpResponse.badRequest, some (from_request request)) ∧
      ∃ t, (ProcessWebhookView.post from_request request).snd = some t ∧
        t.valid = false) ∧
    ((from_request request).valid = true →
      ProcessWebhookView.post from_request request =
        (HttpResponse.ok (toString (from_request request).id),
          some (from_request request))) := by
  constructor
  · intro hvalid
    refine ⟨?_, from_request request, ?_, hvalid⟩ <;>
      simp [ProcessWebhookView.post, hsig, hexc, htest, hvalid]
  · intro hvalid
    simp [ProcessWebhookView.post, hsig, hexc, htest, hvalid]

/-- Witness for C3 at a concrete invalid-signature trigger. -/
theorem webhook_signature_validity_responses_witness :
    ProcessWebhookView.post
        (fun _ => { exception := false, is_test_event := false, valid := false, id := 42 })
        { hasStripeSignature := true } =
      (HttpResponse.badRequest,
        some { exception := false, is_test_event := false, valid := false, id := 42 }) :=
  ((webhook_signature_validity_responses
      (fun _ => { exception := false, is_test_event := false, valid := false, id := 42 })
      { hasStripeSignature := true } rfl rfl rfl).1 rfl).1

/-- **C10.** The exception check strictly precedes the test-event check:
for every webhook POST carrying the signature header whose trigger records
`exception = true`, the response is HTTP 500 — even when
`is_test_event = true` — so the test-event 200 response is never produced
in that case. -/
theorem webhook_exception_precedes_test_event
    (from_request : WebhookRequest → WebhookEventTrigger)
    (request : WebhookRequest)
    (hsig : request.hasStripeSignature = true)
    (hexc : (from_request request).exception = true) :
    (ProcessWebhookView.post from_request request).fst = HttpResponse.serverError ∧
    (ProcessWebhookView.post from_request request).fst ≠
      HttpResponse.ok testWebhookBody := by
  constructor <;> simp [ProcessWebhookView.post, hsig, hexc]

/-- Witness for C10 at a trigger that is both an exception and a test event. -/
theorem webhook_exception_precedes_test_event_witness :
    (ProcessWebhookView.post
        (fun _ => { exception := true, is_test_event := true, valid := true, id := 3 })
        { hasStripeSignature := true }).fst = HttpResponse.serverError ∧
    (ProcessWebhookView.post
        (fun _ => { exception := true, is_test_event := true, valid := true, id := 3 })
        { hasStripeSignature := true }).fst ≠ HttpResponse.ok testWebhookBody :=
  webhook_exception_precedes_test_event
    (fun _ => { exception := true, is_test_event := true, valid := true, id := 3 })
    { hasStripeSignature := true } rfl rfl

/-- Modelled from the spec: the `SubscriptionStatus` enumeration lives in
`djstripe/enums.py`, which is not part of the repository slice; the spec
names the terminal status `canceled`, compared against a subscription's
status string. -/
def SubscriptionStatus.canceled : String := "canceled"

/-- The fields of a `Subscription` record the views read: `status` and
`current_period_end` (in `CancelSubscriptionView`), the plan id and the
verdict of `is_valid()` (in `ConfirmFormView`).  The model class is outside
the repository slice, so both timestamps and the `is_valid()` verdict are
carried as opaque data. -/
structure Subscription where
  status : String
  current_period_end : String
  plan_id : String
  is_valid : Bool
  deriving DecidableEq, Repr

/-- `CancelSubscriptionView.subscription_cancel_message`. -/
def CancelSubscriptionView.subscription_cancel_message : String :=
  "Your subscription is now cancelled."

/-- `CancelSubscriptionView.subscription_status_message`, the template
`"Your subscription status is now '{status}' until '{period_end}'"` after
`.format(status=..., period_end=...)`. -/
def CancelSubscriptionView.subscription_status_message
    (status period_end : String) : String :=
  "Your subscription status is now \x27" ++ status ++ "\x27 until \x27" ++
    period_end ++ "\x27"

/-- `CancelSubscriptionView.get_redirect_url` (views.py lines 134-145).
`next_param` is `request.GET.get(REDIRECT_FIELD_NAME)` (`none` when the
query parameter is absent); Python truthiness makes the empty string fall
through to the default.  `is_safe_url` is Django's same-origin check,
passed in as an oracle. -/
def CancelSubscriptionView.get_redirect_url (next_param : Option String)
    (is_safe_url : String → Bool) (redirect_url : String) : String :=
  match next_param with
  | none => redirect_url
  | some n => if n ≠ "" && is_safe_url n then n else redirect_url

/-- The response produced by `CancelSubscriptionView.form_valid`: either the
`redirect(...)` issued by `status_cancel`, or the `FormView` success
response (a redirect to `success_url`). -/
inductive CancelResponse where
  | redirectTo (url : String)
  | formValidSuccess
  deriving DecidableEq, Repr

/-- The observable effects of one `CancelSubscriptionView.form_valid` run:
the flash messages posted, whether `auth_logout` ran, and the response. -/
structure CancelResult where
  messages : List String
  loggedOut : Bool
  response : CancelResponse
  deriving DecidableEq, Repr

/-- `CancelSubscriptionView.status_cancel` (views.py lines 170-177): posts
the cancellation message, logs the user out, and redirects to
`get_redirect_url()`. -/
def CancelSubscriptionView.status_cancel (next_param : Option String)
    (is_safe_url : String → Bool) (redirect_url : String) : CancelResult :=
  { messages := [CancelSubscriptionView.subscription_cancel_message]
    loggedOut := true
    response := CancelResponse.redirectTo
      (CancelSubscriptionView.get_redirect_url next_param is_safe_url redirect_url) }

/-- `CancelSubscriptionView.form_valid` (views.py lines 147-168).
`subscription_opt` is the resolved customer's `subscription` attribute
(`none` when the customer has no subscription); `cancel` is the provider
call `customer.subscription.cancel()`, returning the updated subscription.
The second component records whether `cancel` was invoked. -/
def CancelSubscriptionView.form_valid (next_param : Option String)
    (is_safe_url : String → Bool) (redirect_url : String)
    (subscription_opt : Option Subscription)
    (cancel : Subscription → Subscription) : CancelResult × Bool :=
  match subscription_opt with
  | none =>
      (CancelSubscriptionView.status_cancel next_param is_safe_url redirect_url,
        false)
  | some sub =>
      let subscription := cancel sub
      if subscription.status = SubscriptionStatus.canceled then
        (CancelSubscriptionView.status_cancel next_param is_safe_url redirect_url,
          true)
      else
        ({ messages := [CancelSubscriptionView.subscription_status_message
              subscription.status subscription.current_period_end]
           loggedOut := false
           response := CancelResponse.formValidSuccess }, true)

/-- **C5.** A `next` query parameter that is not same-origin safe is never
honoured: `get_redirect_url` returns the configured default `redirect_url`
instead; a safe, non-empty `next` value is returned as-is. -/
theorem cancel_redirect_url_same_origin
    (is_safe_url : String → Bool) (redirect_url n : String) :
    (is_safe_url n = false →
      CancelSubscriptionView.get_redirect_url (some n) is_safe_url redirect_url =
        redirect_url) ∧
    (n ≠ "" → is_safe_url n = true →
      CancelSubscriptionView.get_redirect_url (some n) is_safe_url redirect_url =
        n) := by
  constructor
  · intro h
    simp [CancelSubscriptionView.get_redirect_url, h]
  · intro hne h
    simp [CancelSubscriptionView.get_redirect_url, h, hne]

/-- Witness for C5: an external URL with a rejecting same-origin oracle
falls back to the default, and a safe value is passed through. -/
theorem cancel_redirect_url_same_origin_witness :
    CancelSubscriptionView.get_redirect_url (some "https://evil.example/")
        (fun _ => false) "/home" = "/home" ∧
    CancelSubscriptionView.get_redirect_url (some "/account")
        (fun _ => true) "/home" = "/account" :=
  ⟨(cancel_redirect_url_same_origin (fun _ => false) "/home"
      "https://evil.example/").1 rfl,
    (cancel_redirect_url_same_origin (fun _ => true) "/home" "/account").2
      (by decide) rfl⟩

/-- **C4.** For a customer with a subscription: if `cancel()` returns a
subscription with status `canceled`, `form_valid` logs the user out and
redirects; for every other resulting status it never logs the user out and
instead posts an informational message containing the status and the
`current_period_end`. -/
theorem cancel_form_valid_branches
    (next_param : Option String) (is_safe_url : String → Bool)
    (redirect_url : String) (sub : Subscription)
    (cancel : Subscription → Subscription) :
    ((cancel sub).status = SubscriptionStatus.canceled →
      (CancelSubscriptionView.form_valid next_param is_safe_url redirect_url
          (some sub) cancel).1.loggedOut = true ∧
      (CancelSubscriptionView.form_valid next_param is_safe_url redirect_url
          (some sub) cancel).1.response = CancelResponse.redirectTo
        (CancelSubscriptionView.get_redirect_url next_param is_safe_url
          redirect_url)) ∧
    ((cancel sub).status ≠ SubscriptionStatus.canceled →
      (CancelSubscriptionView.form_valid next_param is_safe_url redirect_url
          (some sub) cancel).1.loggedOut = false ∧
      (CancelSubscriptionView.form_valid next_param is_safe_url redirect_url
          (some sub) cancel).1.messages =
        [CancelSubscriptionView.subscription_status_message (cancel sub).status
          (cancel sub).current_period_end] ∧
      (∃ a b, CancelSubscriptionView.subscription_status_message
          (cancel sub).status (cancel sub).current_period_end =
          a ++ (cancel sub).status ++ b) ∧
      (∃ c d, CancelSubscriptionView.subscription_status_message
          (cancel sub).status (cancel sub).current_period_end =
          c ++ (cancel sub).current_period_end ++ d)) := by
  constructor
  · intro h
    constructor <;>
      simp [CancelSubscriptionView.form_valid,
        CancelSubscriptionView.status_cancel, h]
  · intro h
    refine ⟨?_, ?_, ?_, ?_⟩
    · simp [CancelSubscriptionView.form_valid, h]
    · simp [CancelSubscriptionView.form_valid, h]
    · exact ⟨"Your subscription status is now \x27",
        "\x27 until \x27" ++ (cancel sub).current_period_end ++ "\x27",
        by simp [CancelSubscriptionView.subscription_status_message,
          String.append_assoc]⟩
    · exact ⟨"Your subscription status is now \x27" ++ (cancel sub).status ++
          "\x27 until \x27", "\x27",
        by simp [CancelSubscriptionView.subscription_status_message,
          String.append_assoc]⟩

/-- Witness for C4, second branch: a pro-rated cancellation that leaves the
status `active` posts the status message and does not log the user out. -/
theorem cancel_form_valid_branches_witness :
    (CancelSubscriptionView.form_valid none (fun _ => true) "/home"
        (some { status := "active", current_period_end := "2026-01-01",
                plan_id := "p", is_valid := true })
        (fun s => s)).1.loggedOut = false :=
  ((cancel_form_valid_branches none (fun _ => true) "/home"
      { status := "active", current_period_end := "2026-01-01",
        plan_id := "p", is_valid := true }
      (fun s => s)).2 (by decide)).1

/-- **C9.** When the resolved customer has no subscription, `form_valid`
behaves exactly as an immediate successful cancellation: it returns the
`status_cancel` result — cancellation message posted, user logged out,
redirect to the validated redirect URL — and the provider `cancel`
operation is never invoked (second component `false`). -/
theorem cancel_without_subscription_acts_as_cancel
    (next_param : Option String) (is_safe_url : String → Bool)
    (redirect_url : String) (cancel : Subscription → Subscription) :
    CancelSubscriptionView.form_valid next_param is_safe_url redirect_url
        none cancel =
      (CancelSubscriptionView.status_cancel next_param is_safe_url redirect_url,
        false) ∧
    (CancelSubscriptionView.form_valid next_param is_safe_url redirect_url
        none cancel).1.messages =
      [CancelSubscriptionView.subscription_cancel_message] ∧
    (CancelSubscriptionView.form_valid next_param is_safe_url redirect_url
        none cancel).1.loggedOut = true ∧
    (CancelSubscriptionView.form_valid next_param is_safe_url redirect_url
        none cancel).1.response = CancelResponse.redirectTo
      (CancelSubscriptionView.get_redirect_url next_param is_safe_url
        redirect_url) :=
  ⟨rfl, rfl, rfl, rfl⟩

/-- The response of `ConfirmFormView.get`: `HttpResponseNotFound()` (404),
`redirect("djstripe:subscribe")`, or falling through to the parent
`FormView.get` which renders the subscription form. -/
inductive ConfirmGetResponse where
  | notFound
  | redirectToSubscribe
  | renderForm
  deriving DecidableEq, Repr

/-- The observable outcome of one `ConfirmFormView.get` run: the response,
whether `Customer.get_or_create` ran, and the flash messages posted. -/
structure ConfirmGetResult where
  response : ConfirmGetResponse
  customerResolved : Bool
  messages : List String
  deriving DecidableEq, Repr

/-- `ConfirmFormView.get` (views.py lines 68-89).  `plan_exists` stands for
`Plan.objects.filter(pk=plan_id).exists()`; `subscription_opt` is the
`subscription` attribute of the customer that `Customer.get_or_create`
would resolve (the resolution itself is recorded in `customerResolved`).
A subscription's `plan.id` is compared to `plan_id` after `str(...)`, so
plan ids are strings here. -/
def ConfirmFormView.get (plan_id : String) (plan_exists : String → Bool)
    (subscription_opt : Option Subscription) : ConfirmGetResult :=
  if !plan_exists plan_id then
    { response := ConfirmGetResponse.notFound
      customerResolved := false
      messages := [] }
  else
    match subscription_opt with
    | some sub =>
        if sub.plan_id == plan_id && sub.is_valid then
          { response := ConfirmGetResponse.redirectToSubscribe
            customerResolved := true
            messages := ["You already subscribed to this plan"] }
        else
          { response := ConfirmGetResponse.renderForm
            customerResolved := true
            messages := [] }
    | none =>
        { response := ConfirmGetResponse.renderForm
          customerResolved := true
          messages := [] }

/-- **C6.** A GET on the confirm view redirects to the subscribe page with
an informational message — and does not render the subscription form —
whenever the resolved customer already holds a subscription whose plan id
equals the requested `plan_id` and whose `is_valid()` is true; and when no
`Plan` with the requested id exists, the view returns HTTP 404 before any
customer is resolved or created. -/
theorem confirm_get_responses
    (plan_id : String) (plan_exists : String → Bool) (sub : Subscription) :
    (plan_exists plan_id = false →
      ∀ subscription_opt,
        ConfirmFormView.get plan_id plan_exists subscription_opt =
          { response := ConfirmGetResponse.notFound
            customerResolved := false
            messages := [] }) ∧
    (plan_exists plan_id = true → sub.plan_id = plan_id → sub.is_valid = true →
      ConfirmFormView.get plan_id plan_exists (some sub) =
        { response := ConfirmGetResponse.redirectToSubscribe
          customerResolved := true
          messages := ["You already subscribed to this plan"] } ∧
      (ConfirmFormView.get plan_id plan_exists (some sub)).response ≠
        ConfirmGetResponse.renderForm) := by
  constructor
  · intro h subscription_opt
    simp [ConfirmFormView.get, h]
  · intro hex hplan hvalid
    constructor <;> simp [ConfirmFormView.get, hex, hplan, hvalid]

/-- Witness for C6: with an existing plan `"p1"` and a valid subscription
to that plan, the view redirects to the subscribe page. -/
theorem confirm_get_responses_witness :
    ConfirmFormView.get "p1" (fun _ => true)
        (some { status := "active", current_period_end := "2026-01-01",
                plan_id := "p1", is_valid := true }) =
      { response := ConfirmGetResponse.redirectToSubscribe
        customerResolved := true
        messages := ["You already subscribed to this plan"] } :=
  ((confirm_get_responses "p1" (fun _ => true)
      { status := "active", current_period_end := "2026-01-01",
        plan_id := "p1", is_valid := true }).2 rfl rfl rfl).1

/-- The response of `ConfirmFormView.post`: `self.form_invalid(form)` or
`self.form_valid(form)`. -/
inductive ConfirmPostResponse where
  | formInvalid
  | formValidSuccess
  deriving DecidableEq, Repr

/-- The observable outcome of one `ConfirmFormView.post` run: the response,
the non-field errors attached to the form by `form.add_error(None, ...)`,
whether `customer.subscribe` was invoked, and whether a subscription was
created (i.e. `subscribe` was invoked and succeeded). -/
structure ConfirmPostResult where
  response : ConfirmPostResponse
  formErrors : List String
  subscribeCalled : Bool
  subscriptionCreated : Bool
  deriving DecidableEq, Repr

/-- `ConfirmFormView.post` (views.py lines 97-118).  `form_is_valid` is the
verdict of `form.is_valid()`; `add_card` and `subscribe` are the provider
calls `customer.add_card(...)` and `customer.subscribe(...)`, each either
succeeding or raising a `StripeError` whose `str(exc)` is carried in
`Except.error`. -/
def ConfirmFormView.post (form_is_valid : Bool)
    (add_card : Except String Unit) (subscribe : Except String Unit) :
    ConfirmPostResult :=
  if form_is_valid then
    match add_card with
    | Except.error exc =>
        { response := ConfirmPostResponse.formInvalid
          formErrors := [exc]
          subscribeCalled := false
          subscriptionCreated := false }
    | Except.ok _ =>
        match subscribe with
        | Except.error exc =>
            { response := ConfirmPostResponse.formInvalid
              formErrors := [exc]
              subscribeCalled := true
              subscriptionCreated := false }
        | Except.ok _ =>
            { response := ConfirmPostResponse.formValidSuccess
              formErrors := []
              subscribeCalled := true
              subscriptionCreated := true }
  else
    { response := ConfirmPostResponse.formInvalid
      formErrors := []
      subscribeCalled := false
      subscriptionCreated := false }

/-- **C7.** On a valid confirm POST, a `StripeError` raised by `add_card`
or by `subscribe` attaches the error message to the form and returns the
invalid-form response; in particular, when `add_card` fails, `subscribe` is
never invoked and no subscription is created. -/
theorem confirm_post_stripe_error_handling
    (add_card subscribe : Except String Unit) :
    (∀ exc, add_card = Except.error exc →
      ConfirmFormView.post true add_card subscribe =
        { response := ConfirmPostResponse.formInvalid
          formErrors := [exc]
          subscribeCalled := false
          subscriptionCreated := false }) ∧
    (∀ exc, add_card = Except.ok () → subscribe = Except.error exc →
      ConfirmFormView.post true add_card subscribe =
        { response := ConfirmPostResponse.formInvalid
          formErrors := [exc]
          subscribeCalled := true
          subscriptionCreated := false }) := by
  constructor
  · intro exc h
    simp [ConfirmFormView.post, h]
  · intro exc hcard hsub
    simp [ConfirmFormView.post, hcard, hsub]

/-- Witness for C7: a failing `add_card` surfaces the provider message and
never reaches `subscribe`. -/
theorem confirm_post_stripe_error_handling_witness :
    ConfirmFormView.post true (Except.error "No such token") (Except.ok ()) =
      { response := ConfirmPostResponse.formInvalid
        formErrors := ["No such token"]
        subscribeCalled := false
        subscriptionCreated := false } :=
  (confirm_post_stripe_error_handling (Except.error "No such token")
      (Except.ok ())).1 "No such token" rfl

/-- The part of the `Customer` record `ChangeCardView.post` reads:
`default_source`, the reference to the default payment source (`none` when
the customer has no payment method yet). -/
structure CardCustomer where
  default_source : Option String
  deriving DecidableEq, Repr

/-- The response of `ChangeCardView.post`: a render of the template with a
`stripe_error` on failure, or a redirect to `get_post_success_url()`. -/
inductive ChangeCardResponse where
  | renderError (stripe_error : String)
  | redirectToAccount
  deriving DecidableEq, Repr

/-- The observable outcome of one `ChangeCardView.post` run: whether
`customer.send_invoice()` and `customer.retry_unpaid_invoices()` were
invoked, the flash messages, the response, and the customer record after
the call. -/
structure ChangeCardResult where
  sendInvoiceCalled : Bool
  retryUnpaidInvoicesCalled : Bool
  messages : List String
  response : ChangeCardResponse
  customerAfter : CardCustomer
  deriving DecidableEq, Repr

/-- `ChangeCardView.post` (views.py lines 203-225).  `add_card` is the
provider call `customer.add_card(stripe_token)`: `Except.ok` attaches the
card and (modelled from the spec, the `Customer` model being outside the
repository slice: attaching "updates the customer's default payment source
both remotely and locally") makes it the default source; `Except.error`
carries `str(exc)` of the raised `StripeError`.  The spec lists no failure
mode for `send_invoice`/`retry_unpaid_invoices`, so these are modelled as
recorded dispatches.  The Python local `send_invoice = not
customer.default_source` is computed before `add_card` runs. -/
def ChangeCardView.post (customer : CardCustomer) (stripe_token : String)
    (add_card : Except String Unit) : ChangeCardResult :=
  let send_invoice := customer.default_source.isNone
  match add_card with
  | Except.error exc =>
      { sendInvoiceCalled := false
        retryUnpaidInvoicesCalled := false
        messages := ["Stripe Error"]
        response := ChangeCardResponse.renderError exc
        customerAfter := customer }
  | Except.ok _ =>
      { sendInvoiceCalled := send_invoice
        retryUnpaidInvoicesCalled := true
        messages := ["Your card is now updated."]
        response := ChangeCardResponse.redirectToAccount
        customerAfter := { default_source := some stripe_token } }

/-- **C8.** On a successful attachment, `send_invoice` is dispatched iff
the customer had no default payment source before the new card was
attached — the decision is captured before `add_card` runs, and afterwards
the default source is the new card, so a post-attachment check would always
see a source — and `retry_unpaid_invoices` is invoked on every successful
attachment regardless; when `add_card` raises, neither is invoked. -/
theorem change_card_send_invoice_on_first_source
    (customer : CardCustomer) (stripe_token : String) :
    ((ChangeCardView.post customer stripe_token
        (Except.ok ())).sendInvoiceCalled = customer.default_source.isNone) ∧
    ((ChangeCardView.post customer stripe_token
        (Except.ok ())).retryUnpaidInvoicesCalled = true) ∧
    ((ChangeCardView.post customer stripe_token
        (Except.ok ())).customerAfter.default_source = some stripe_token) ∧
    (∀ exc,
      (ChangeCardView.post customer stripe_token
          (Except.error exc)).sendInvoiceCalled = false ∧
      (ChangeCardView.post customer stripe_token
          (Except.error exc)).retryUnpaidInvoicesCalled = false) :=
  ⟨rfl, rfl, rfl, fun _ => ⟨rfl, rfl⟩⟩
